import Mathlib

/-!
Formal model of the faster-whisper skill repository.

The repository wraps an external speech-recognition library behind a
command-line transcription tool (scripts/transcribe.py), an environment
bootstrap script (scripts/setup_environment.py) and an installer
(install.py).  This file gives a shallow embedding of the data model and
the operations of those scripts and proves the testable properties stated
about them.

Modelling conventions:
* Python floats are modelled as rationals; the scripts only move numeric
  values around, divide by constants, and format them, so no genuine
  floating-point behaviour is relied on except where noted at the
  definition concerned.
* Python dictionaries coming from the JSON configuration file are
  modelled as records of optional fields (a missing key is none).
* The external library call is modelled by its argument record and by an
  environment-supplied response; the wrapper code around it is translated
  faithfully.
-/

namespace FasterWhisper

/-- Python modulo on numbers, `a % b`, for a positive modulus `b`,
over the rationals: the representative of `a` in `[0, b)`. -/
def pyMod (a b : ℚ) : ℚ := a - b * ⌊a / b⌋

/-- Zero-pad the decimal representation of `n` to width `w`, as Python
format specifiers such as 02d and 03d do (wider numbers are kept whole). -/
def pad (w : Nat) (n : Nat) : String :=
  String.mk (List.replicate (w - (Nat.repr n).length) '0') ++ Nat.repr n

/-- Model of `format_timestamp` (scripts/transcribe.py, lines 81-86):
hours by integer division, minutes from the remainder, and the remaining
seconds rendered with the Python specifier 06.3f.  That specifier rounds
the value to three decimals and zero-pads the integer part to two digits
(the value is below 100 here, so the width-6 form is exactly
SS.mmm); the rounding is modelled by `round` on the millisecond count.
Python `int` truncates toward zero, which on the non-negative inputs of
this program is the floor. -/
def format_timestamp (seconds : ℚ) : String :=
  let hours : ℕ := (⌊seconds / 3600⌋).toNat
  let minutes : ℕ := (⌊pyMod seconds 3600 / 60⌋).toNat
  let secs : ℚ := pyMod seconds 60
  let secMs : ℕ := (round (secs * 1000)).toNat
  pad 2 hours ++ ":" ++ pad 2 minutes ++ ":" ++
    pad 2 (secMs / 1000) ++ "." ++ pad 3 (secMs % 1000)

/-- Model of `format_timestamp_srt` (scripts/transcribe.py, lines 89-95):
hours and minutes as above, but the seconds and the milliseconds are
truncated by `int(...)` rather than rounded. -/
def format_timestamp_srt (seconds : ℚ) : String :=
  let hours : ℕ := (⌊seconds / 3600⌋).toNat
  let minutes : ℕ := (⌊pyMod seconds 3600 / 60⌋).toNat
  let secs : ℕ := (⌊pyMod seconds 60⌋).toNat
  let millis : ℕ := (⌊pyMod seconds 1 * 1000⌋).toNat
  pad 2 hours ++ ":" ++ pad 2 minutes ++ ":" ++ pad 2 secs ++ "," ++ pad 3 millis

/-- The standard sexagesimal rendering of a duration of `ms` milliseconds
with the given separator before the millisecond field (specification
side: hours, then minutes below 60, then seconds below 60, then
milliseconds below 1000). -/
def sexagesimalRender (sep : String) (ms : ℕ) : String :=
  pad 2 (ms / 3600000) ++ ":" ++ pad 2 (ms % 3600000 / 60000) ++ ":" ++
    pad 2 (ms % 60000 / 1000) ++ sep ++ pad 3 (ms % 1000)

/-- Decoding of the four sexagesimal components back into milliseconds
(specification side). -/
def sexagesimalDecode (h m s q : ℕ) : ℕ := ((h * 60 + m) * 60 + s) * 1000 + q

/-- Floor of a quotient of naturals cast into the rationals is the
natural division. -/
lemma floor_natCast_div (a d : ℕ) : ⌊(a : ℚ) / (d : ℚ)⌋ = ((a / d : ℕ) : ℤ) := by
  exact_mod_cast Rat.floor_natCast_div_natCast a d

/-- Floor of a duration given in milliseconds, divided by `k` seconds. -/
lemma floor_ms_div (a k : ℕ) :
    ⌊((a : ℚ) / 1000) / (k : ℚ)⌋ = ((a / (1000 * k) : ℕ) : ℤ) := by
  rw [div_div, show ((1000 : ℚ) * k) = ((1000 * k : ℕ) : ℚ) by push_cast; ring]
  exact floor_natCast_div a (1000 * k)

/-- Python modulo of a whole-millisecond duration by `k` seconds keeps the
milliseconds modulo `1000 * k`. -/
lemma pyMod_ms (a k : ℕ) :
    pyMod ((a : ℚ) / 1000) (k : ℚ) = ((a % (1000 * k) : ℕ) : ℚ) / 1000 := by
  unfold pyMod
  rw [floor_ms_div]
  have h2 : ((1000 * k * (a / (1000 * k)) + a % (1000 * k) : ℕ) : ℚ) = (a : ℚ) := by
    exact_mod_cast congrArg (fun n : ℕ => (n : ℚ)) (Nat.div_add_mod a (1000 * k))
  push_cast at h2
  rw [Int.cast_natCast]
  linear_combination (-1 / 1000 : ℚ) * h2

/-- On a whole-millisecond duration, `format_timestamp` produces exactly
the standard sexagesimal rendering with a dot separator. -/
lemma format_timestamp_ms (ms : ℕ) :
    format_timestamp ((ms : ℚ) / 1000) = sexagesimalRender "." ms := by
  simp only [format_timestamp, sexagesimalRender]
  have hfl : ⌊((ms : ℚ) / 1000) / (3600 : ℚ)⌋ = ((ms / 3600000 : ℕ) : ℤ) := by
    have := floor_ms_div ms 3600; norm_num at this; exact_mod_cast this
  have hmod : pyMod ((ms : ℚ) / 1000) (3600 : ℚ) = ((ms % 3600000 : ℕ) : ℚ) / 1000 := by
    have := pyMod_ms ms 3600; norm_num at this; exact_mod_cast this
  have hmin : ⌊(((ms % 3600000 : ℕ) : ℚ) / 1000) / (60 : ℚ)⌋
      = ((ms % 3600000 / 60000 : ℕ) : ℤ) := by
    have := floor_ms_div (ms % 3600000) 60; norm_num at this; exact_mod_cast this
  have hs : pyMod ((ms : ℚ) / 1000) (60 : ℚ) = ((ms % 60000 : ℕ) : ℚ) / 1000 := by
    have := pyMod_ms ms 60; norm_num at this; exact_mod_cast this
  have hround : round ((((ms % 60000 : ℕ) : ℚ) / 1000) * 1000) = ((ms % 60000 : ℕ) : ℤ) := by
    rw [div_mul_cancel₀ _ (by norm_num : (1000 : ℚ) ≠ 0)]
    exact_mod_cast round_natCast (α := ℚ) (ms % 60000)
  rw [hfl, hmod, hmin, hs, hround]
  simp only [Int.toNat_natCast]
  rw [Nat.mod_mod_of_dvd ms (by norm_num : (1000 : ℕ) ∣ 60000)]

/-- On a whole-millisecond duration, `format_timestamp_srt` produces
exactly the standard sexagesimal rendering with a comma separator. -/
lemma format_timestamp_srt_ms (ms : ℕ) :
    format_timestamp_srt ((ms : ℚ) / 1000) = sexagesimalRender "," ms := by
  simp only [format_timestamp_srt, sexagesimalRender]
  have hfl : ⌊((ms : ℚ) / 1000) / (3600 : ℚ)⌋ = ((ms / 3600000 : ℕ) : ℤ) := by
    have := floor_ms_div ms 3600; norm_num at this; exact_mod_cast this
  have hmod : pyMod ((ms : ℚ) / 1000) (3600 : ℚ) = ((ms % 3600000 : ℕ) : ℚ) / 1000 := by
    have := pyMod_ms ms 3600; norm_num at this; exact_mod_cast this
  have hmin : ⌊(((ms % 3600000 : ℕ) : ℚ) / 1000) / (60 : ℚ)⌋
      = ((ms % 3600000 / 60000 : ℕ) : ℤ) := by
    have := floor_ms_div (ms % 3600000) 60; norm_num at this; exact_mod_cast this
  have hs : pyMod ((ms : ℚ) / 1000) (60 : ℚ) = ((ms % 60000 : ℕ) : ℚ) / 1000 := by
    have := pyMod_ms ms 60; norm_num at this; exact_mod_cast this
  have hsf : ⌊((ms % 60000 : ℕ) : ℚ) / 1000⌋ = ((ms % 60000 / 1000 : ℕ) : ℤ) := by
    have := floor_natCast_div (ms % 60000) 1000; exact_mod_cast this
  have hq : pyMod ((ms : ℚ) / 1000) (1 : ℚ) = ((ms % 1000 : ℕ) : ℚ) / 1000 := by
    have := pyMod_ms ms 1; norm_num at this; exact_mod_cast this
  have hmil : ⌊(((ms % 1000 : ℕ) : ℚ) / 1000) * 1000⌋ = ((ms % 1000 : ℕ) : ℤ) := by
    rw [div_mul_cancel₀ _ (by norm_num : (1000 : ℚ) ≠ 0)]
    exact Int.floor_natCast (ms % 1000)
  rw [hfl, hmod, hmin, hs, hsf, hq, hmil]
  simp only [Int.toNat_natCast]

/-- C4 counterexample: the claim is false as stated for general non-negative
durations.  At 59.99951171875 seconds (an exact binary floating-point value),
the 06.3f specifier in `format_timestamp` rounds the seconds field up to
60.000 without carrying into the minutes, producing "00:00:60.000", which is
not a sexagesimal rendering of any duration (a seconds field of 60 is outside
the encoding): it differs from the renderings of both the truncated
millisecond count 59999 and the rounded millisecond count 60000.
`format_timestamp_srt` truncates instead, so at the very same input the two
functions also disagree on the digits, contradicting that both are renderings
of one encoding of the same duration. -/
theorem c4_counterexample :
    format_timestamp (59.99951171875 : ℚ) = "00:00:60.000" ∧
    format_timestamp_srt (59.99951171875 : ℚ) = "00:00:59,999" ∧
    "00:00:60.000" ≠ sexagesimalRender "." 59999 ∧
    "00:00:60.000" ≠ sexagesimalRender "." 60000 := by
  have hq : (59.99951171875 : ℚ) = (122879 : ℚ) / 2048 := by norm_num
  have h36 : ⌊(122879 : ℚ) / 2048 / 3600⌋ = 0 := by
    rw [div_div]
    rw [show ((122879 : ℚ)) = ((122879 : ℕ) : ℚ) by norm_num,
        show ((2048 * 3600 : ℚ)) = ((7372800 : ℕ) : ℚ) by norm_num,
        Rat.floor_natCast_div_natCast]
    decide
  have hm36 : pyMod ((122879 : ℚ) / 2048) 3600 = (122879 : ℚ) / 2048 := by
    unfold pyMod; rw [h36]; norm_num
  have h60 : ⌊(122879 : ℚ) / 2048 / 60⌋ = 0 := by
    rw [div_div]
    rw [show ((122879 : ℚ)) = ((122879 : ℕ) : ℚ) by norm_num,
        show ((2048 * 60 : ℚ)) = ((122880 : ℕ) : ℚ) by norm_num,
        Rat.floor_natCast_div_natCast]
    decide
  have hm60 : pyMod ((122879 : ℚ) / 2048) 60 = (122879 : ℚ) / 2048 := by
    unfold pyMod; rw [h60]; norm_num
  refine ⟨?_, ?_, by decide, by decide⟩
  · rw [hq]
    simp only [format_timestamp]
    have hround : round ((122879 : ℚ) / 2048 * 1000) = 60000 := by
      rw [round_eq,
          show ((122879 : ℚ) / 2048 * 1000 + 1 / 2) = ((122880024 : ℕ) : ℚ) / ((2048 : ℕ) : ℚ)
            by push_cast; ring,
          Rat.floor_natCast_div_natCast]
      decide
    rw [h36, hm36, h60, hm60, hround]
    decide
  · rw [hq]
    simp only [format_timestamp_srt]
    have hf1 : ⌊(122879 : ℚ) / 2048⌋ = 59 := by
      rw [show ((122879 : ℚ)) = ((122879 : ℕ) : ℚ) by norm_num,
          show ((2048 : ℚ)) = ((2048 : ℕ) : ℚ) by norm_num,
          Rat.floor_natCast_div_natCast]
      decide
    have hdiv1 : ⌊(122879 : ℚ) / 2048 / 1⌋ = 59 := by rw [div_one]; exact hf1
    have hm1 : pyMod ((122879 : ℚ) / 2048) 1 = (2047 : ℚ) / 2048 := by
      unfold pyMod; rw [hdiv1]; norm_num
    have hmil : ⌊(2047 : ℚ) / 2048 * 1000⌋ = 999 := by
      rw [show ((2047 : ℚ) / 2048 * 1000) = ((2047000 : ℕ) : ℚ) / ((2048 : ℕ) : ℚ)
            by push_cast; ring,
          Rat.floor_natCast_div_natCast]
      decide
    rw [h36, hm36, h60, hm60, hf1, hm1, hmil]
    decide

/-- C4 (amended to whole-millisecond durations): for every duration that is a
non-negative whole number of milliseconds, `format_timestamp` renders it as
HH:MM:SS.mmm and `format_timestamp_srt` as HH:MM:SS,mmm under the standard
sexagesimal encoding, whose components decode back to the duration; in
particular 3725.5 seconds yields "01:02:05.500" and "01:02:05,500". -/
theorem c4_timestamp_sexagesimal (ms : ℕ) :
    format_timestamp ((ms : ℚ) / 1000) = sexagesimalRender "." ms ∧
    format_timestamp_srt ((ms : ℚ) / 1000) = sexagesimalRender "," ms ∧
    sexagesimalDecode (ms / 3600000) (ms % 3600000 / 60000) (ms % 60000 / 1000) (ms % 1000)
      = ms ∧
    format_timestamp (3725.5 : ℚ) = "01:02:05.500" ∧
    format_timestamp_srt (3725.5 : ℚ) = "01:02:05,500" := by
  refine ⟨format_timestamp_ms ms, format_timestamp_srt_ms ms, ?_, ?_, ?_⟩
  · unfold sexagesimalDecode; omega
  · rw [show (3725.5 : ℚ) = ((3725500 : ℕ) : ℚ) / 1000 by norm_num, format_timestamp_ms]
    decide
  · rw [show (3725.5 : ℚ) = ((3725500 : ℕ) : ℚ) / 1000 by norm_num, format_timestamp_srt_ms]
    decide

/-- Values the JSON configuration file may provide; a missing key is none.
`TranscriptionConfig.from_file` reads each key with dict.get
(scripts/transcribe.py, lines 50-60).  The vad_parameters object is opaque
to the scripts and modelled by its serialized text. -/
structure ConfigData where
  model_size : Option String := none
  device : Option String := none
  compute_type : Option String := none
  language : Option String := none
  task : Option String := none
  beam_size : Option Int := none
  vad_filter : Option Bool := none
  vad_parameters : Option String := none
  word_timestamps : Option Bool := none
deriving Repr, DecidableEq

/-- The TranscriptionConfig dataclass with its hardcoded defaults
(scripts/transcribe.py, lines 27-38). -/
structure TranscriptionConfig where
  model_size : String := "large-v3"
  device : String := "cpu"
  compute_type : String := "int8"
  language : Option String := none
  task : String := "transcribe"
  beam_size : Int := 5
  vad_filter : Bool := false
  vad_parameters : Option String := none
  word_timestamps : Bool := false
deriving Repr, DecidableEq

/-- TranscriptionConfig.from_file (scripts/transcribe.py, lines 40-60).
The argument is the parsed content of the configuration file, or none when
the file does not exist (in which case the dataclass defaults are used; a
file that exists but fails to parse raises an exception and is outside this
model). -/
def TranscriptionConfig.from_file : Option ConfigData → TranscriptionConfig
  | none => {}
  | some d =>
    { model_size := d.model_size.getD "large-v3"
      device := d.device.getD "cpu"
      compute_type := d.compute_type.getD "int8"
      language := d.language
      task := d.task.getD "transcribe"
      beam_size := d.beam_size.getD 5
      vad_filter := d.vad_filter.getD false
      vad_parameters := d.vad_parameters
      word_timestamps := d.word_timestamps.getD false }

/-- Parsed command-line arguments as argparse would return them (main,
scripts/transcribe.py, lines 257-286): optional flags are none when absent;
--vad-filter and --word-timestamps are store_true actions with default
None, so they are either none or some true; --format defaults to "text". -/
structure Args where
  audio_file : String
  config : String := "scripts/config.json"
  model : Option String := none
  device : Option String := none
  compute_type : Option String := none
  language : Option String := none
  task : Option String := none
  beam_size : Option Int := none
  vad_filter : Option Bool := none
  word_timestamps : Option Bool := none
  output : Option String := none
  format : String := "text"
  verbose : Bool := false
deriving Repr, DecidableEq

/-- The command-line override block of main (scripts/transcribe.py, lines
296-312).  The string-valued flags are tested for truthiness
(if args.model:), so a present but empty string does not override;
beam_size and the two store_true flags are tested with "is not None".
The source performs eight single-field assignments on pairwise distinct
fields, rendered here as one record update. -/
def applyOverrides (config : TranscriptionConfig) (args : Args) : TranscriptionConfig :=
  { config with
    model_size :=
      match args.model with
      | some s => if s.isEmpty then config.model_size else s
      | none => config.model_size,
    device :=
      match args.device with
      | some s => if s.isEmpty then config.device else s
      | none => config.device,
    compute_type :=
      match args.compute_type with
      | some s => if s.isEmpty then config.compute_type else s
      | none => config.compute_type,
    language :=
      match args.language with
      | some s => if s.isEmpty then config.language else some s
      | none => config.language,
    task :=
      match args.task with
      | some s => if s.isEmpty then config.task else s
      | none => config.task,
    beam_size :=
      match args.beam_size with
      | some n => n
      | none => config.beam_size,
    vad_filter :=
      match args.vad_filter with
      | some b => b
      | none => config.vad_filter,
    word_timestamps :=
      match args.word_timestamps with
      | some b => b
      | none => config.word_timestamps }

/-- The merged configuration used for transcription: file configuration
(or defaults) overridden by the command-line flags (main, lines 293-312). -/
def mergedConfig (d : Option ConfigData) (a : Args) : TranscriptionConfig :=
  applyOverrides (TranscriptionConfig.from_file d) a

/-- Choices argparse enforces for --model (line 262). -/
def modelChoices : List String :=
  ["tiny", "base", "small", "medium", "large-v1", "large-v2", "large-v3",
   "distil-large-v3"]

/-- Choices argparse enforces for --device (line 264). -/
def deviceChoices : List String := ["cpu", "cuda"]

/-- Choices argparse enforces for --compute-type (line 267). -/
def computeTypeChoices : List String := ["float16", "int8", "int8_float16"]

/-- Choices argparse enforces for --task (line 271). -/
def taskChoices : List String := ["transcribe", "translate"]

/-- An Args value argparse could actually produce: every flag declared with
a choices list holds one of the listed values when present.  --language and
--beam-size carry no choices list and are unconstrained. -/
def validArgs (a : Args) : Bool :=
  (match a.model with | none => true | some s => modelChoices.contains s) &&
  (match a.device with | none => true | some s => deviceChoices.contains s) &&
  (match a.compute_type with | none => true | some s => computeTypeChoices.contains s) &&
  (match a.task with | none => true | some s => taskChoices.contains s)

/-- A string belonging to a list of non-empty strings is non-empty. -/
lemma contains_nonempty {l : List String} (hl : l.all (fun s => !s.isEmpty) = true)
    {s : String} (hs : l.contains s = true) : s.isEmpty = false := by
  have hmem : s ∈ l := by simpa using hs
  have := (List.all_eq_true.mp hl) s hmem
  simpa using this

/-- C1 counterexample: the claim is false as stated.  Pass --language with
the empty string (argparse accepts it, since --language has no choices
list) against a configuration file that sets language to "zh": the flag
was given, yet the merged configuration keeps the file value, because the
override block tests the flag for truthiness rather than for presence. -/
theorem c1_counterexample :
    ({ audio_file := "a.mp3", language := some "" } : Args).language = some "" ∧
    validArgs { audio_file := "a.mp3", language := some "" } = true ∧
    (mergedConfig (some { language := some "zh" })
        { audio_file := "a.mp3", language := some "" }).language = some "zh" ∧
    (mergedConfig (some { language := some "zh" })
        { audio_file := "a.mp3", language := some "" }).language ≠ some "" := by
  refine ⟨rfl, by decide, by decide, by decide⟩

/-- C1 (amended): for every configuration file and every set of flags
argparse can produce, each field of the merged configuration comes from
the command-line flag when that flag was given with a truthy value,
otherwise from the configuration file when the file provides the key,
otherwise from the hardcoded default; for every flag except --language a
given flag is always truthy (its choices list has no empty string), while
a --language flag given the empty string is ignored and the file/default
value is kept.  Each field depends only on its own flag and the file, so
a flag changes exactly the field it names. -/
theorem c1_config_precedence (d : Option ConfigData) (a : Args)
    (h : validArgs a = true) :
    ((mergedConfig d a).model_size = match a.model with
      | some s => s
      | none => match d with
        | some dd => dd.model_size.getD "large-v3"
        | none => "large-v3") ∧
    ((mergedConfig d a).device = match a.device with
      | some s => s
      | none => match d with
        | some dd => dd.device.getD "cpu"
        | none => "cpu") ∧
    ((mergedConfig d a).compute_type = match a.compute_type with
      | some s => s
      | none => match d with
        | some dd => dd.compute_type.getD "int8"
        | none => "int8") ∧
    ((mergedConfig d a).language = match a.language with
      | some s =>
        if s.isEmpty then (match d with | some dd => dd.language | none => none)
        else some s
      | none => match d with
        | some dd => dd.language
        | none => none) ∧
    ((mergedConfig d a).task = match a.task with
      | some s => s
      | none => match d with
        | some dd => dd.task.getD "transcribe"
        | none => "transcribe") ∧
    ((mergedConfig d a).beam_size = match a.beam_size with
      | some n => n
      | none => match d with
        | some dd => dd.beam_size.getD 5
        | none => 5) ∧
    ((mergedConfig d a).vad_filter = match a.vad_filter with
      | some b => b
      | none => match d with
        | some dd => dd.vad_filter.getD false
        | none => false) ∧
    ((mergedConfig d a).word_timestamps = match a.word_timestamps with
      | some b => b
      | none => match d with
        | some dd => dd.word_timestamps.getD false
        | none => false) ∧
    ((mergedConfig d a).vad_parameters = match d with
      | some dd => dd.vad_parameters
      | none => none) := by
  have hv : validArgs a = true := h
  unfold validArgs at hv
  simp only [Bool.and_eq_true] at hv
  obtain ⟨⟨⟨hm, hd⟩, hc⟩, ht⟩ := hv
  refine ⟨?_, ?_, ?_, ?_, ?_, ?_, ?_, ?_, ?_⟩
  · cases hma : a.model with
    | none => cases d <;> simp [mergedConfig, applyOverrides, TranscriptionConfig.from_file, hma]
    | some s =>
      rw [hma] at hm
      have hne : s.isEmpty = false := contains_nonempty (by decide) hm
      cases d <;>
        simp [mergedConfig, applyOverrides, TranscriptionConfig.from_file, hma, hne]
  · cases hma : a.device with
    | none => cases d <;> simp [mergedConfig, applyOverrides, TranscriptionConfig.from_file, hma]
    | some s =>
      rw [hma] at hd
      have hne : s.isEmpty = false := contains_nonempty (by decide) hd
      cases d <;>
        simp [mergedConfig, applyOverrides, TranscriptionConfig.from_file, hma, hne]
  · cases hma : a.compute_type with
    | none => cases d <;> simp [mergedConfig, applyOverrides, TranscriptionConfig.from_file, hma]
    | some s =>
      rw [hma] at hc
      have hne : s.isEmpty = false := contains_nonempty (by decide) hc
      cases d <;>
        simp [mergedConfig, applyOverrides, TranscriptionConfig.from_file, hma, hne]
  · cases hma : a.language with
    | none => cases d <;> simp [mergedConfig, applyOverrides, TranscriptionConfig.from_file, hma]
    | some s =>
      cases hse : s.isEmpty <;> cases d <;>
        simp [mergedConfig, applyOverrides, TranscriptionConfig.from_file, hma, hse]
  · cases hma : a.task with
    | none => cases d <;> simp [mergedConfig, applyOverrides, TranscriptionConfig.from_file, hma]
    | some s =>
      rw [hma] at ht
      have hne : s.isEmpty = false := contains_nonempty (by decide) ht
      cases d <;>
        simp [mergedConfig, applyOverrides, TranscriptionConfig.from_file, hma, hne]
  · cases hma : a.beam_size <;> cases d <;>
      simp [mergedConfig, applyOverrides, TranscriptionConfig.from_file, hma]
  · cases hma : a.vad_filter <;> cases d <;>
      simp [mergedConfig, applyOverrides, TranscriptionConfig.from_file, hma]
  · cases hma : a.word_timestamps <;> cases d <;>
      simp [mergedConfig, applyOverrides, TranscriptionConfig.from_file, hma]
  · cases d <;> simp [mergedConfig, applyOverrides, TranscriptionConfig.from_file]

/-- Witness for the amended C1 at a concrete file and flag set: the file
sets model_size "small" and beam_size 9, the flags give --model tiny and
--language zh; the merged configuration takes model_size from the flag. -/
theorem c1_config_precedence_witness :
    validArgs { audio_file := "a.mp3", model := some "tiny", language := some "zh" } = true ∧
    (mergedConfig (some { model_size := some "small", beam_size := some 9 })
        { audio_file := "a.mp3", model := some "tiny", language := some "zh" }).model_size
      = "tiny" :=
  ⟨by decide,
    (c1_config_precedence (some { model_size := some "small", beam_size := some 9 })
      { audio_file := "a.mp3", model := some "tiny", language := some "zh" } (by decide)).1⟩

/-- A word-level entry with timing and confidence, as supplied by the
library and rebuilt by `transcribe` (scripts/transcribe.py, lines 159-162). -/
structure Word where
  start : ℚ
  «end» : ℚ
  word : String
  probability : ℚ
deriving Repr, DecidableEq

/-- The Segment dataclass (scripts/transcribe.py, lines 63-69). -/
structure Segment where
  start : ℚ
  «end» : ℚ
  text : String
  words : Option (List Word) := none
deriving Repr, DecidableEq

/-- The TranscriptionResult dataclass (scripts/transcribe.py, lines 72-78). -/
structure TranscriptionResult where
  language : String
  language_probability : ℚ
  duration : ℚ
  segments : List Segment
deriving Repr, DecidableEq

/-- A segment as yielded by the external library.  The code guards the
word list with hasattr and truthiness, so none here covers both a missing
attribute and None. -/
structure LibSegment where
  start : ℚ
  «end» : ℚ
  text : String
  words : Option (List Word) := none
deriving Repr, DecidableEq

/-- The info object returned by the library next to the segments. -/
structure LibInfo where
  language : String
  language_probability : ℚ
  duration : ℚ
deriving Repr, DecidableEq

/-- The pair the library call returns: the (materialized) segment iterator
and the info object. -/
structure LibResponse where
  segments : List LibSegment
  info : LibInfo
deriving Repr, DecidableEq

/-- Argument record of the WhisperModel load (lines 119-123) and of the
model.transcribe call (lines 139-147) taken together. -/
structure LibCallArgs where
  model_size : String
  device : String
  compute_type : String
  audio_path : String
  language : Option String
  task : String
  beam_size : Int
  vad_filter : Bool
  vad_parameters : Option String
  word_timestamps : Bool
deriving Repr, DecidableEq

/-- The wrapper logic of `transcribe` leading to the library call
(scripts/transcribe.py, lines 119-147): VAD parameters are dropped unless
vad_filter is set (line 126), and a language equal to "auto" is replaced
by None (line 129). -/
def transcribeCall (audio_path : String) (config : TranscriptionConfig) : LibCallArgs :=
  { model_size := config.model_size
    device := config.device
    compute_type := config.compute_type
    audio_path := audio_path
    language := if config.language == some "auto" then none else config.language
    task := config.task
    beam_size := config.beam_size
    vad_filter := config.vad_filter
    vad_parameters := if config.vad_filter then config.vad_parameters else none
    word_timestamps := config.word_timestamps }

/-- Python str.isspace restricted to the ASCII whitespace characters
(space, tab, newline, carriage return, vertical tab, form feed); wider
Unicode whitespace is not modelled. -/
def pyIsSpace (c : Char) : Bool :=
  c == ' ' || c == '\t' || c == '\n' || c == '\r' || c == '\x0b' || c == '\x0c'

/-- Python str.strip(): remove leading and trailing whitespace. -/
def pyStrip (s : String) : String :=
  String.mk (((s.data.dropWhile pyIsSpace).reverse.dropWhile pyIsSpace).reverse)

/-- Truthiness of the word list attribute: present and non-empty. -/
def wordsTruthy : Option (List Word) → Bool
  | none => false
  | some l => !l.isEmpty

/-- The result-building part of `transcribe` (scripts/transcribe.py, lines
149-176): each library segment becomes a Segment with stripped text, and
the word entries are rebuilt only when word timestamps were requested and
the library supplied a truthy word list. -/
def transcribe (lib : LibResponse) (config : TranscriptionConfig) : TranscriptionResult :=
  { language := lib.info.language
    language_probability := lib.info.language_probability
    duration := lib.info.duration
    segments := lib.segments.map fun seg =>
      { start := seg.start
        «end» := seg.«end»
        text := pyStrip seg.text
        words :=
          if config.word_timestamps && wordsTruthy seg.words then
            some ((seg.words.getD []).map fun w =>
              { start := w.start, «end» := w.«end», word := w.word,
                probability := w.probability })
          else none } }

/-- C9: a configuration whose language field is "auto" produces exactly the
library invocation of the configuration with the language unset: no
language is forced. -/
theorem c9_language_auto (audio_path : String) (c : TranscriptionConfig) :
    transcribeCall audio_path { c with language := some "auto" }
      = transcribeCall audio_path { c with language := none } := by
  simp [transcribeCall]

/-- The first element surviving dropWhile does not satisfy the predicate. -/
lemma dropWhile_head_false {p : Char → Bool} {l : List Char} {c : Char}
    (h : (l.dropWhile p).head? = some c) : p c = false := by
  induction l with
  | nil => simp [List.dropWhile] at h
  | cons a t ih =>
    rw [List.dropWhile_cons] at h
    cases hp : p a
    · rw [hp] at h
      simp only [Bool.false_eq_true, if_false, List.head?_cons, Option.some.injEq] at h
      exact h ▸ hp
    · rw [hp] at h
      simp only [if_true] at h
      exact ih h

/-- If dropWhile leaves something, it leaves the last element in place. -/
lemma dropWhile_getLast {p : Char → Bool} {l : List Char}
    (h : l.dropWhile p ≠ []) : (l.dropWhile p).getLast? = l.getLast? := by
  induction l with
  | nil => simp [List.dropWhile] at h
  | cons a t ih =>
    rw [List.dropWhile_cons] at h ⊢
    cases hp : p a
    · simp
    · have hred : (if true = true then List.dropWhile p t else a :: t)
          = List.dropWhile p t := if_pos rfl
      rw [hp] at h
      rw [hred] at h ⊢
      have ht : t ≠ [] := by
        intro he
        rw [he] at h
        simp [List.dropWhile] at h
      cases t with
      | nil => exact absurd rfl ht
      | cons b t2 => rw [List.getLast?_cons_cons]; exact ih h

/-- A string with no leading and no trailing whitespace. -/
def noEdgeWS (s : String) : Bool :=
  (match s.data.head? with | none => true | some c => !pyIsSpace c) &&
  (match s.data.getLast? with | none => true | some c => !pyIsSpace c)

/-- The output of pyStrip has no leading or trailing whitespace. -/
lemma pyStrip_noEdgeWS (s : String) : noEdgeWS (pyStrip s) = true := by
  unfold pyStrip noEdgeWS
  rw [Bool.and_eq_true]
  constructor
  · rw [show (String.mk (((s.data.dropWhile pyIsSpace).reverse.dropWhile
        pyIsSpace).reverse)).data
      = ((s.data.dropWhile pyIsSpace).reverse.dropWhile pyIsSpace).reverse from rfl]
    rw [List.head?_reverse]
    cases hvl : ((s.data.dropWhile pyIsSpace).reverse.dropWhile pyIsSpace).getLast? with
    | none => rfl
    | some c =>
      have hne : (s.data.dropWhile pyIsSpace).reverse.dropWhile pyIsSpace ≠ [] := by
        intro he; rw [he] at hvl; simp at hvl
      rw [dropWhile_getLast hne, List.getLast?_reverse] at hvl
      have := dropWhile_head_false hvl
      simp [this]
  · rw [show (String.mk (((s.data.dropWhile pyIsSpace).reverse.dropWhile
        pyIsSpace).reverse)).data
      = ((s.data.dropWhile pyIsSpace).reverse.dropWhile pyIsSpace).reverse from rfl]
    rw [List.getLast?_reverse]
    cases hvh : ((s.data.dropWhile pyIsSpace).reverse.dropWhile pyIsSpace).head? with
    | none => rfl
    | some c =>
      have := dropWhile_head_false hvh
      simp [this]

/-- C10: for every library response and configuration, every segment text
produced by `transcribe` has no leading or trailing whitespace (the text is
stripped before the result is built). -/
theorem c10_segments_stripped (lib : LibResponse) (config : TranscriptionConfig) :
    ((transcribe lib config).segments.all fun seg => noEdgeWS seg.text) = true := by
  apply List.all_eq_true.mpr
  intro seg hseg
  obtain ⟨s0, hmem, heq⟩ := List.mem_map.mp hseg
  rw [← heq]
  exact pyStrip_noEdgeWS s0.text

/-- One entry of the segments array in the JSON output: the summary keys
start, end, text, plus the optional words key. -/
structure JsonSegment where
  start : ℚ
  «end» : ℚ
  text : String
  words : Option (List Word) := none
deriving Repr, DecidableEq

/-- The JSON object format_json serializes. -/
structure JsonOutput where
  language : String
  language_probability : ℚ
  duration : ℚ
  segments : List JsonSegment
deriving Repr, DecidableEq

/-- format_json (scripts/transcribe.py, lines 208-229) as the JSON object
it serializes: the dict always carries start, end and text per segment;
with full=true the loop adds the words key to exactly those segments whose
words attribute is truthy (non-None and non-empty).  json.dumps followed
by a parse is the identity on this object (that round trip belongs to the
json library, not to this repository). -/
def format_json (result : TranscriptionResult) (full : Bool) : JsonOutput :=
  { language := result.language
    language_probability := result.language_probability
    duration := result.duration
    segments := result.segments.map fun seg =>
      { start := seg.start
        «end» := seg.«end»
        text := seg.text
        words := if full && wordsTruthy seg.words then seg.words else none } }

/-- C5: parsing the JSON produced by format_json yields segments in
one-to-one order-preserving correspondence with the input segments,
matching on start, end and text (the Forall₂ entails equal lengths). -/
theorem c5_json_round_trip (result : TranscriptionResult) (full : Bool) :
    (format_json result full).segments.length = result.segments.length ∧
    List.Forall₂ (fun (j : JsonSegment) (seg : Segment) =>
        j.start = seg.start ∧ j.«end» = seg.«end» ∧ j.text = seg.text)
      (format_json result full).segments result.segments := by
  constructor
  · simp [format_json]
  · have h : (format_json result full).segments
        = result.segments.map fun seg =>
            ({ start := seg.start, «end» := seg.«end», text := seg.text,
               words := if full && wordsTruthy seg.words then seg.words else none }
              : JsonSegment) := rfl
    rw [h, List.forall₂_map_left_iff]
    exact List.forall₂_same.mpr fun seg _ => ⟨rfl, rfl, rfl⟩

/-- C6: the plain json format never carries a words key, and on a result
built by `transcribe` the json_full format carries a words key in a
segment exactly when word timestamps were requested in the configuration
and the library supplied a truthy (non-empty) word list for that segment. -/
theorem c6_words_exactly_when (result : TranscriptionResult)
    (lib : LibResponse) (config : TranscriptionConfig) :
    ((format_json result false).segments.all fun j => j.words.isNone) = true ∧
    List.Forall₂ (fun (j : JsonSegment) (seg : LibSegment) =>
        j.words.isSome = (config.word_timestamps && wordsTruthy seg.words))
      (format_json (transcribe lib config) true).segments lib.segments := by
  constructor
  · apply List.all_eq_true.mpr
    intro j hj
    obtain ⟨s0, hmem, heq⟩ := List.mem_map.mp hj
    rw [← heq]
    simp
  · have h : (format_json (transcribe lib config) true).segments
        = lib.segments.map fun seg =>
            ({ start := seg.start, «end» := seg.«end», text := pyStrip seg.text,
               words :=
                 if true && wordsTruthy (if config.word_timestamps && wordsTruthy seg.words
                     then some ((seg.words.getD []).map fun w =>
                       ({ start := w.start, «end» := w.«end», word := w.word,
                          probability := w.probability } : Word))
                     else none) then
                   (if config.word_timestamps && wordsTruthy seg.words
                     then some ((seg.words.getD []).map fun w =>
                       ({ start := w.start, «end» := w.«end», word := w.word,
                          probability := w.probability } : Word))
                     else none)
                 else none } : JsonSegment) := by
      simp only [format_json, transcribe, List.map_map]
      rfl
    rw [h, List.forall₂_map_left_iff]
    apply List.forall₂_same.mpr
    intro seg _
    cases hw : config.word_timestamps
    · simp [wordsTruthy]
    · cases hsw : seg.words with
      | none => simp [wordsTruthy]
      | some l =>
        cases l with
        | nil => simp [wordsTruthy]
        | cons w ws => simp [wordsTruthy]

/-- One SRT cue as the claim describes it: the number line, the timing
line, the segment text, and the blank separator line (specification
side). -/
def srtCue (n : ℕ) (seg : Segment) : List String :=
  [Nat.repr n,
   format_timestamp_srt seg.start ++ " --> " ++ format_timestamp_srt seg.«end»,
   seg.text,
   ""]

/-- The line list built by the loop of format_srt, enumerating from `k`
(the source enumerates from 1; scripts/transcribe.py, lines 197-203). -/
def srtLines (k : ℕ) : List Segment → List String
  | [] => []
  | seg :: rest =>
    Nat.repr k ::
      (format_timestamp_srt seg.start ++ " --> " ++ format_timestamp_srt seg.«end») ::
      seg.text :: "" :: srtLines (k + 1) rest

/-- format_srt (scripts/transcribe.py, lines 195-205). -/
def format_srt (result : TranscriptionResult) : String :=
  String.intercalate "\n" (srtLines 1 result.segments)

/-- The loop lines are the concatenation of the cue blocks with numbers
counting up from `k`. -/
lemma srtLines_eq (segs : List Segment) : ∀ k,
    srtLines k segs
      = (((List.range segs.length).zip segs).map fun p => srtCue (p.1 + k) p.2).flatten := by
  induction segs with
  | nil => intro k; simp [srtLines]
  | cons seg rest ih =>
    intro k
    rw [srtLines, List.length_cons, List.range_succ_eq_map, List.zip_cons_cons,
        List.map_cons, List.flatten_cons, List.zip_map_left, List.map_map, ih (k + 1)]
    have harg : ((fun p => srtCue (p.1 + k) p.2) ∘ Prod.map Nat.succ id)
        = fun p : ℕ × Segment => srtCue (p.1 + (k + 1)) p.2 := by
      funext p
      have : Nat.succ p.1 + k = p.1 + (k + 1) := by omega
      simp [Function.comp, Prod.map, this]
    rw [harg]
    simp [srtCue]

/-- C7: format_srt is the newline-joined concatenation of cue blocks whose
numbers are 1, 2, ..., n in order, each block being the number line, the
HH:MM:SS,mmm --> HH:MM:SS,mmm timing line, the segment text and a blank
separator line; the number of cue blocks equals the number of segments. -/
theorem c7_srt_cues (result : TranscriptionResult) :
    format_srt result
      = String.intercalate "\n"
          ((((List.range result.segments.length).zip result.segments).map
            fun p => srtCue (p.1 + 1) p.2).flatten) ∧
    (((List.range result.segments.length).zip result.segments).map
        fun p => srtCue (p.1 + 1) p.2).length = result.segments.length := by
  constructor
  · unfold format_srt
    rw [srtLines_eq result.segments 1]
  · simp

/-- Whether a name string starts with the argparse prefix character (the
default prefix characters are just the dash). -/
def startsWithDash (s : String) : Bool := s.front == '-'

/-- Validation argparse performs on the name strings of one add_argument
call: a single name not starting with a prefix character declares a
positional argument; otherwise the call declares an optional argument and
every name must start with a prefix character, a name that does not
raising ValueError("invalid option string ...") at parser construction
time.  The accumulator threads an already-raised error past the remaining
calls, as an uncaught exception would. -/
def addArgument (st : Except String (List (List String))) (names : List String) :
    Except String (List (List String)) :=
  match st with
  | .error e => .error e
  | .ok specs =>
    match names with
    | [_] => .ok (specs ++ [names])
    | _ =>
      match names.find? (fun s => !startsWithDash s) with
      | some bad => .error ("invalid option string " ++ bad)
      | none => .ok (specs ++ [names])

/-- The thirteen add_argument calls of main (scripts/transcribe.py, lines
257-284), by their name strings.  The call for --format passes the extra
name string "fmt" (line 281). -/
def argumentCalls : List (List String) :=
  [["audio_file"], ["--config"], ["--model"], ["--device"], ["--compute-type"],
   ["--language"], ["--task"], ["--beam-size"], ["--vad-filter"],
   ["--word-timestamps"], ["--output", "-o"], ["--format", "fmt"],
   ["--verbose", "-v"]]

/-- Building the argument table: argparse validates each call in order. -/
def buildArgumentTable : Except String (List (List String)) :=
  argumentCalls.foldl addArgument (.ok [])

/-- Parser construction fails on the twelfth call: "fmt" does not start
with a dash. -/
lemma buildArgumentTable_error :
    buildArgumentTable = .error "invalid option string fmt" := rfl

/-- Observable outcome of one run of the transcription CLI: the process
exit status, whether the transcription call was reached, and the path an
output file was written to, if any. -/
structure MainRun where
  exitCode : ℕ
  transcribeAttempted : Bool
  savedPath : Option String
deriving Repr, DecidableEq

/-- Environment of one run of the CLI: whether the audio path exists on
the filesystem, the parsed content of the configuration file (none when
the file is absent), and the outcome the external library would deliver
for these settings. -/
structure MainEnv where
  audio_exists : Bool
  config_data : Option ConfigData := none
  lib : Except String LibResponse
deriving Repr

/-- main (scripts/transcribe.py, lines 243-337).  The argument parser is
built before the command line is inspected; `buildArgumentTable` fails, so
the ValueError escapes main and Python terminates the process with exit
status 1 (the status of any uncaught exception), touching nothing else.
The remaining branches model the rest of main faithfully: a missing audio
file prints an error and exits 1 before the configuration is loaded and
before transcription; an exception from the transcription call is caught
and exits 1; otherwise the chosen format is rendered and written to the
--output path when one was given, and the process ends with status 0.
Only the destination of the rendered text is tracked here; the rendering
functions themselves are modelled separately above. -/
def mainRun (env : MainEnv) (args : Args) : MainRun :=
  match buildArgumentTable with
  | .error _ => { exitCode := 1, transcribeAttempted := false, savedPath := none }
  | .ok _ =>
    if !env.audio_exists then
      { exitCode := 1, transcribeAttempted := false, savedPath := none }
    else
      match env.lib with
      | .error _ => { exitCode := 1, transcribeAttempted := true, savedPath := none }
      | .ok _ => { exitCode := 0, transcribeAttempted := true, savedPath := args.output }

/-- A library response for a run in which transcription would succeed. -/
def sampleResponse : LibResponse :=
  { segments := [], info := { language := "en", language_probability := 1, duration := 0 } }

/-- An environment in which the audio file exists and the library call
would succeed. -/
def okEnv : MainEnv := { audio_exists := true, lib := .ok sampleResponse }

/-- An environment in which the audio file is missing. -/
def missingEnv : MainEnv := { audio_exists := false, lib := .error "unreached" }

/-- An invocation with only the audio file and no flags. -/
def plainArgs : Args := { audio_file := "audio.mp3" }

/-- C2: the grammar claim fails on the code.  Parser construction raises
ValueError("invalid option string fmt") on the --format call, before any
command line is parsed, so the invocation `transcribe audio.mp3` with an
existing audio file is not accepted and never proceeds to transcription. -/
theorem c2_plain_invocation_crashes :
    buildArgumentTable = Except.error "invalid option string fmt" ∧
    (mainRun okEnv plainArgs).transcribeAttempted = false ∧
    (mainRun okEnv plainArgs).exitCode = 1 := by
  exact ⟨rfl, rfl, rfl⟩

/-- C3: the exit-code claim fails on the code.  A run with an existing
audio file and a successful library call would have to exit 0 by the
claim, but the uncaught parser-construction ValueError makes the process
exit with status 1. -/
theorem c3_successful_run_exits_one :
    okEnv.audio_exists = true ∧
    (Except.isOk okEnv.lib) = true ∧
    (mainRun okEnv plainArgs).exitCode = 1 := by
  exact ⟨rfl, rfl, rfl⟩

/-- C8: an invocation whose audio file does not exist exits with status 1,
never reaches the transcription call, and never writes an output file. -/
theorem c8_missing_audio_no_output (env : MainEnv) (args : Args)
    (h : env.audio_exists = false) :
    (mainRun env args).exitCode = 1 ∧
    (mainRun env args).transcribeAttempted = false ∧
    (mainRun env args).savedPath = none := by
  unfold mainRun
  rw [buildArgumentTable_error]
  exact ⟨rfl, rfl, rfl⟩

/-- Witness for C8 at a concrete environment with a missing audio file. -/
theorem c8_missing_audio_no_output_witness :
    missingEnv.audio_exists = false ∧
    (mainRun missingEnv plainArgs).exitCode = 1 ∧
    (mainRun missingEnv plainArgs).transcribeAttempted = false ∧
    (mainRun missingEnv plainArgs).savedPath = none :=
  ⟨rfl, c8_missing_audio_no_output missingEnv plainArgs rfl⟩

/-- Environment of one run of setup_environment.py: whether the process is
already inside the skill virtual environment, whether the environment
directory exists, whether creating it would succeed, whether a
requirements file exists, and whether the two pip subprocesses would
succeed. -/
structure SetupEnv where
  in_skill_venv : Bool
  venv_exists : Bool
  create_ok : Bool
  requirements_exist : Bool
  pip_upgrade_ok : Bool
  install_ok : Bool
deriving Repr, DecidableEq

/-- ensure_venv (scripts/setup_environment.py, lines 32-77): inside the
skill environment return True at once; otherwise create the environment
when its directory is missing, returning False when creation raises; then,
when a requirements file exists, run the pip upgrade and the install,
returning False when either subprocess fails, and True otherwise; with no
requirements file, skip installation and return True. -/
def ensure_venv (e : SetupEnv) : Bool :=
  if e.in_skill_venv then true
  else if !e.venv_exists && !e.create_ok then false
  else if e.requirements_exist then e.pip_upgrade_ok && e.install_ok
  else true

/-- main of setup_environment.py (lines 94-112): returns 1 on failure and
None on success, and sys.exit(main() or 0) turns that into the process
exit status. -/
def setupExitCode (e : SetupEnv) : ℕ := if ensure_venv e then 0 else 1

/-- The setup script exits non-zero exactly when, outside the skill
environment, environment creation fails or dependency installation (either
pip step) fails. -/
lemma setupExitCode_nonzero_iff (e : SetupEnv) :
    setupExitCode e ≠ 0 ↔
      e.in_skill_venv = false ∧
        ((e.venv_exists = false ∧ e.create_ok = false) ∨
         ((e.venv_exists = true ∨ e.create_ok = true) ∧ e.requirements_exist = true ∧
           (e.pip_upgrade_ok = false ∨ e.install_ok = false))) := by
  rcases e with ⟨a, b, c, d, f, g⟩
  cases a <;> cases b <;> cases c <;> cases d <;> cases f <;> cases g <;>
    simp [setupExitCode, ensure_venv]

end FasterWhisper
